import Mathlib

/-
Shallow embedding of the InvoiceIQ Python SDK (files src/invoiceiq/client.py and
src/invoiceiq/models.py) in Lean 4, together with theorems settling the frozen
claims about the job poller, the response handler and the typed models.

Modelling conventions:
* Python floats (poll intervals, amounts) are modelled as exact rationals.
* Python `time.time()` / `time.sleep(d)` are idealised: the clock starts at 0,
  fetch calls take no time, and sleeping for `d` advances the clock by exactly
  `d`.  `deadline = now + max_wait_seconds` at entry therefore becomes the
  constant `maxWait`, and the code's check `time.time() + delay > deadline`
  becomes `elapsed + delay > maxWait` where `elapsed` is total time slept.
* Python exceptions become explicit sum-type results; the poll loop, which has
  no termination guarantee in the source, is run with explicit fuel (the value
  `none` means the fuel ran out before the loop terminated).
* JSON values decoded by `resp.json()` / produced by pydantic are modelled by
  the inductive `Json`; `Json.null` also stands for Python `None`.
-/

namespace InvoiceIQ

/-- JSON values as decoded by Python's json machinery; `null` also models
Python `None`. -/
inductive Json : Type where
  | null : Json
  | bool (b : Bool) : Json
  | num (q : ℚ) : Json
  | str (s : String) : Json
  | arr (elems : List Json) : Json
  | obj (fields : List (String × Json)) : Json

/-- Python truthiness of a decoded JSON value (`None`, `False`, `0`, `""`,
`[]`, `{}` are falsy). -/
def Json.isTruthy : Json → Bool
  | .null => false
  | .bool b => b
  | .num q => q != 0
  | .str s => s != ""
  | .arr elems => !elems.isEmpty
  | .obj fields => !fields.isEmpty

/-- Python `dict.get(key)` on a decoded JSON object: the first value bound to
`key`, or `None` (modelled as `Json.null`) when the key is absent. -/
def dictGet (fields : List (String × Json)) (key : String) : Json :=
  match fields.find? (fun kv => kv.1 == key) with
  | some kv => kv.2
  | none => .null

/-- Field lookup used by the pydantic-model readers: `none` when the key is
absent (as opposed to present with value `null`). -/
def Json.objField? (j : Json) (key : String) : Option Json :=
  match j with
  | .obj fields => (fields.find? (fun kv => kv.1 == key)).map (fun kv => kv.2)
  | _ => none

/- Readers for single pydantic fields.  The outer `Option` is success of the
validation; the inner value is the parsed field.  A required field fails when
missing or of the wrong type; an optional field yields its default when the
key is missing and `none` when the value is `null`. -/

/-- Required `str` field. -/
def readReqStr : Option Json → Option String
  | some (.str s) => some s
  | _ => none

/-- Optional `str` field with default `dflt`. -/
def readOptStr : Option Json → Option String → Option (Option String)
  | none, dflt => some dflt
  | some .null, _ => some none
  | some (.str s), _ => some (some s)
  | some _, _ => none

/-- Required `float` field. -/
def readReqNum : Option Json → Option ℚ
  | some (.num q) => some q
  | _ => none

/-- Optional `float` field (default `None`). -/
def readOptNum : Option Json → Option (Option ℚ)
  | none => some none
  | some .null => some none
  | some (.num q) => some (some q)
  | some _ => none

/-- Optional `int` field (default `None`). -/
def readOptInt : Option Json → Option (Option ℤ)
  | none => some none
  | some .null => some none
  | some (.num q) => if q.den = 1 then some (some q.num) else none
  | some _ => none

/-- Optional `bool` field (default `None`). -/
def readOptBool : Option Json → Option (Option Bool)
  | none => some none
  | some .null => some none
  | some (.bool b) => some (some b)
  | some _ => none

/-- Required nested-model field, parsed by `f`. -/
def readReqObj {α : Type} (f : Json → Option α) : Option Json → Option α
  | some j => f j
  | none => none

/-- Optional nested-model field, parsed by `f`. -/
def readOptObj {α : Type} (f : Json → Option α) : Option Json → Option (Option α)
  | none => some none
  | some .null => some none
  | some j => (f j).map some

/-- Optional list field whose elements are parsed by `f`. -/
def readOptList {α : Type} (f : Json → Option α) : Option Json → Option (Option (List α))
  | none => some none
  | some .null => some none
  | some (.arr elems) => (elems.mapM f).map some
  | some _ => none

/- JSON builders used by the pydantic serialisers (`model_dump_json`). -/

/-- Serialise an optional string field. -/
def optStrJson : Option String → Json
  | none => .null
  | some s => .str s

/-- Serialise an optional number field. -/
def optNumJson : Option ℚ → Json
  | none => .null
  | some q => .num q

/-- Serialise an optional integer field. -/
def optIntJson : Option ℤ → Json
  | none => .null
  | some n => .num (n : ℚ)

/-- Serialise an optional boolean field. -/
def optBoolJson : Option Bool → Json
  | none => .null
  | some b => .bool b

/-- Serialise an optional nested model with serialiser `g`. -/
def optObjJson {α : Type} (g : α → Json) : Option α → Json
  | none => .null
  | some a => g a

/-- Serialise an optional list of nested models with serialiser `g`. -/
def optListJson {α : Type} (g : α → Json) : Option (List α) → Json
  | none => .null
  | some elems => .arr (elems.map g)

/- Typed resource models from src/invoiceiq/models.py.  Each pydantic model
becomes a structure, its `model_dump_json` a `toJson` function emitting every
field in declaration order (absent optionals as `null`), and its
`model_validate` a `modelValidate` function. -/

/-- `Address` (models.py). -/
structure Address : Type where
  line1 : Option String := none
  line2 : Option String := none
  postCode : Option String := none
  city : Option String := none
  countryCode : Option String := none

/-- `Party` (models.py). -/
structure Party : Type where
  name : String
  registrationId : Option String := none
  vatId : Option String := none
  countryCode : Option String := none
  address : Option Address := none

/-- `LogoOptions` (models.py); `align` carries the pattern
`^(left|center|right)$`. -/
structure LogoOptions : Type where
  url : Option String := none
  width : Option ℤ := none
  align : Option String := none

/-- `FooterOptions` (models.py). -/
structure FooterOptions : Type where
  extraText : Option String := none
  showPageNumbers : Option Bool := none

/-- `RenderingOptions` (models.py). -/
structure RenderingOptions : Type where
  template : Option String := none
  font : Option String := none
  primaryColor : Option String := none
  accentColor : Option String := none
  logo : Option LogoOptions := none
  footer : Option FooterOptions := none
  notes : Option String := none
  locale : Option String := none

/-- `InvoiceLine` (models.py). -/
structure InvoiceLine : Type where
  id : Option String := none
  name : String
  description : Option String := none
  quantity : ℚ
  unitCode : Option String := some "C62"
  netPrice : Option ℚ := none
  unitPrice : Option ℚ := none
  taxRate : Option ℚ := none
  taxCategoryCode : Option String := some "S"
  taxExemptionReason : Option String := none
  totalAmount : ℚ

/-- `TaxSummary` (models.py). -/
structure TaxSummary : Type where
  taxRate : Option ℚ := none
  basisAmount : Option ℚ := none
  taxableAmount : Option ℚ := none
  taxAmount : Option ℚ := none
  taxCategoryCode : Option String := some "S"
  taxExemptionReason : Option String := none

/-- `TransformationMetadata` (models.py). -/
structure TransformationMetadata : Type where
  invoiceNumber : String
  issueDate : String
  currency : Option String := some "EUR"
  typeCode : Option String := some "380"
  seller : Party
  buyer : Party
  lines : Option (List InvoiceLine) := none
  taxes : Option (List TaxSummary) := none
  taxSummaries : Option (List TaxSummary) := none
  totalTaxExclusiveAmount : ℚ
  taxTotalAmount : ℚ
  totalTaxInclusiveAmount : ℚ
  purchaseOrderReference : Option String := none
  rendering : Option RenderingOptions := none

/-- `Job` (models.py). -/
structure Job : Type where
  id : String
  status : String
  downloadUrl : Option String := none
  reportDownloadUrl : Option String := none

/-- `ValidationReport` (models.py); `issues` is an untyped list. -/
structure ValidationReport : Type where
  transformation : Option String := none
  finalScore : Option ℚ := none
  profile : Option String := none
  issues : Option (List Json) := none

/- Serialisers (pydantic `model_dump_json`). -/

/-- Serialise an `Address`. -/
def Address.toJson (a : Address) : Json :=
  .obj [("line1", optStrJson a.line1), ("line2", optStrJson a.line2),
    ("postCode", optStrJson a.postCode), ("city", optStrJson a.city),
    ("countryCode", optStrJson a.countryCode)]

/-- Serialise a `Party`. -/
def Party.toJson (p : Party) : Json :=
  .obj [("name", .str p.name), ("registrationId", optStrJson p.registrationId),
    ("vatId", optStrJson p.vatId), ("countryCode", optStrJson p.countryCode),
    ("address", optObjJson Address.toJson p.address)]

/-- Serialise `LogoOptions`. -/
def LogoOptions.toJson (l : LogoOptions) : Json :=
  .obj [("url", optStrJson l.url), ("width", optIntJson l.width),
    ("align", optStrJson l.align)]

/-- Serialise `FooterOptions`. -/
def FooterOptions.toJson (f : FooterOptions) : Json :=
  .obj [("extraText", optStrJson f.extraText),
    ("showPageNumbers", optBoolJson f.showPageNumbers)]

/-- Serialise `RenderingOptions`. -/
def RenderingOptions.toJson (r : RenderingOptions) : Json :=
  .obj [("template", optStrJson r.template), ("font", optStrJson r.font),
    ("primaryColor", optStrJson r.primaryColor),
    ("accentColor", optStrJson r.accentColor),
    ("logo", optObjJson LogoOptions.toJson r.logo),
    ("footer", optObjJson FooterOptions.toJson r.footer),
    ("notes", optStrJson r.notes), ("locale", optStrJson r.locale)]

/-- Serialise an `InvoiceLine`. -/
def InvoiceLine.toJson (l : InvoiceLine) : Json :=
  .obj [("id", optStrJson l.id), ("name", .str l.name),
    ("description", optStrJson l.description), ("quantity", .num l.quantity),
    ("unitCode", optStrJson l.unitCode), ("netPrice", optNumJson l.netPrice),
    ("unitPrice", optNumJson l.unitPrice), ("taxRate", optNumJson l.taxRate),
    ("taxCategoryCode", optStrJson l.taxCategoryCode),
    ("taxExemptionReason", optStrJson l.taxExemptionReason),
    ("totalAmount", .num l.totalAmount)]

/-- Serialise a `TaxSummary`. -/
def TaxSummary.toJson (t : TaxSummary) : Json :=
  .obj [("taxRate", optNumJson t.taxRate),
    ("basisAmount", optNumJson t.basisAmount),
    ("taxableAmount", optNumJson t.taxableAmount),
    ("taxAmount", optNumJson t.taxAmount),
    ("taxCategoryCode", optStrJson t.taxCategoryCode),
    ("taxExemptionReason", optStrJson t.taxExemptionReason)]

/-- Serialise a `TransformationMetadata` (the record sent by `transform_pdf`
as the `metadata` form field). -/
def TransformationMetadata.toJson (m : TransformationMetadata) : Json :=
  .obj [("invoiceNumber", .str m.invoiceNumber), ("issueDate", .str m.issueDate),
    ("currency", optStrJson m.currency), ("typeCode", optStrJson m.typeCode),
    ("seller", Party.toJson m.seller), ("buyer", Party.toJson m.buyer),
    ("lines", optListJson InvoiceLine.toJson m.lines),
    ("taxes", optListJson TaxSummary.toJson m.taxes),
    ("taxSummaries", optListJson TaxSummary.toJson m.taxSummaries),
    ("totalTaxExclusiveAmount", .num m.totalTaxExclusiveAmount),
    ("taxTotalAmount", .num m.taxTotalAmount),
    ("totalTaxInclusiveAmount", .num m.totalTaxInclusiveAmount),
    ("purchaseOrderReference", optStrJson m.purchaseOrderReference),
    ("rendering", optObjJson RenderingOptions.toJson m.rendering)]

/- Parsers (pydantic `model_validate`). -/

/-- Parse an `Address` from decoded JSON. -/
def Address.modelValidate (j : Json) : Option Address := do
  let line1 ← readOptStr (j.objField? "line1") none
  let line2 ← readOptStr (j.objField? "line2") none
  let postCode ← readOptStr (j.objField? "postCode") none
  let city ← readOptStr (j.objField? "city") none
  let countryCode ← readOptStr (j.objField? "countryCode") none
  pure ⟨line1, line2, postCode, city, countryCode⟩

/-- Parse a `Party` from decoded JSON. -/
def Party.modelValidate (j : Json) : Option Party := do
  let name ← readReqStr (j.objField? "name")
  let registrationId ← readOptStr (j.objField? "registrationId") none
  let vatId ← readOptStr (j.objField? "vatId") none
  let countryCode ← readOptStr (j.objField? "countryCode") none
  let address ← readOptObj Address.modelValidate (j.objField? "address")
  pure ⟨name, registrationId, vatId, countryCode, address⟩

/-- The pattern `^(left|center|right)$` constraining `LogoOptions.align`. -/
def alignOk : Option String → Bool
  | none => true
  | some s => s == "left" || s == "center" || s == "right"

/-- Parse `LogoOptions` from decoded JSON, enforcing the `align` pattern. -/
def LogoOptions.modelValidate (j : Json) : Option LogoOptions := do
  let url ← readOptStr (j.objField? "url") none
  let width ← readOptInt (j.objField? "width")
  let align ← readOptStr (j.objField? "align") none
  if alignOk align then pure ⟨url, width, align⟩ else none

/-- Parse `FooterOptions` from decoded JSON. -/
def FooterOptions.modelValidate (j : Json) : Option FooterOptions := do
  let extraText ← readOptStr (j.objField? "extraText") none
  let showPageNumbers ← readOptBool (j.objField? "showPageNumbers")
  pure ⟨extraText, showPageNumbers⟩

/-- Parse `RenderingOptions` from decoded JSON. -/
def RenderingOptions.modelValidate (j : Json) : Option RenderingOptions := do
  let template ← readOptStr (j.objField? "template") none
  let font ← readOptStr (j.objField? "font") none
  let primaryColor ← readOptStr (j.objField? "primaryColor") none
  let accentColor ← readOptStr (j.objField? "accentColor") none
  let logo ← readOptObj LogoOptions.modelValidate (j.objField? "logo")
  let footer ← readOptObj FooterOptions.modelValidate (j.objField? "footer")
  let notes ← readOptStr (j.objField? "notes") none
  let locale ← readOptStr (j.objField? "locale") none
  pure ⟨template, font, primaryColor, accentColor, logo, footer, notes, locale⟩

/-- Parse an `InvoiceLine` from decoded JSON. -/
def InvoiceLine.modelValidate (j : Json) : Option InvoiceLine := do
  let id ← readOptStr (j.objField? "id") none
  let name ← readReqStr (j.objField? "name")
  let description ← readOptStr (j.objField? "description") none
  let quantity ← readReqNum (j.objField? "quantity")
  let unitCode ← readOptStr (j.objField? "unitCode") (some "C62")
  let netPrice ← readOptNum (j.objField? "netPrice")
  let unitPrice ← readOptNum (j.objField? "unitPrice")
  let taxRate ← readOptNum (j.objField? "taxRate")
  let taxCategoryCode ← readOptStr (j.objField? "taxCategoryCode") (some "S")
  let taxExemptionReason ← readOptStr (j.objField? "taxExemptionReason") none
  let totalAmount ← readReqNum (j.objField? "totalAmount")
  pure ⟨id, name, description, quantity, unitCode, netPrice, unitPrice,
    taxRate, taxCategoryCode, taxExemptionReason, totalAmount⟩

/-- Parse a `TaxSummary` from decoded JSON. -/
def TaxSummary.modelValidate (j : Json) : Option TaxSummary := do
  let taxRate ← readOptNum (j.objField? "taxRate")
  let basisAmount ← readOptNum (j.objField? "basisAmount")
  let taxableAmount ← readOptNum (j.objField? "taxableAmount")
  let taxAmount ← readOptNum (j.objField? "taxAmount")
  let taxCategoryCode ← readOptStr (j.objField? "taxCategoryCode") (some "S")
  let taxExemptionReason ← readOptStr (j.objField? "taxExemptionReason") none
  pure ⟨taxRate, basisAmount, taxableAmount, taxAmount, taxCategoryCode,
    taxExemptionReason⟩

/-- Parse a `TransformationMetadata` from decoded JSON. -/
def TransformationMetadata.modelValidate (j : Json) :
    Option TransformationMetadata := do
  let invoiceNumber ← readReqStr (j.objField? "invoiceNumber")
  let issueDate ← readReqStr (j.objField? "issueDate")
  let currency ← readOptStr (j.objField? "currency") (some "EUR")
  let typeCode ← readOptStr (j.objField? "typeCode") (some "380")
  let seller ← readReqObj Party.modelValidate (j.objField? "seller")
  let buyer ← readReqObj Party.modelValidate (j.objField? "buyer")
  let lines ← readOptList InvoiceLine.modelValidate (j.objField? "lines")
  let taxes ← readOptList TaxSummary.modelValidate (j.objField? "taxes")
  let taxSummaries ← readOptList TaxSummary.modelValidate (j.objField? "taxSummaries")
  let totalTaxExclusiveAmount ← readReqNum (j.objField? "totalTaxExclusiveAmount")
  let taxTotalAmount ← readReqNum (j.objField? "taxTotalAmount")
  let totalTaxInclusiveAmount ← readReqNum (j.objField? "totalTaxInclusiveAmount")
  let purchaseOrderReference ← readOptStr (j.objField? "purchaseOrderReference") none
  let rendering ← readOptObj RenderingOptions.modelValidate (j.objField? "rendering")
  pure ⟨invoiceNumber, issueDate, currency, typeCode, seller, buyer, lines,
    taxes, taxSummaries, totalTaxExclusiveAmount, taxTotalAmount,
    totalTaxInclusiveAmount, purchaseOrderReference, rendering⟩

/-- Parse a `Job` from decoded JSON. -/
def Job.modelValidate (j : Json) : Option Job := do
  let id ← readReqStr (j.objField? "id")
  let status ← readReqStr (j.objField? "status")
  let downloadUrl ← readOptStr (j.objField? "downloadUrl") none
  let reportDownloadUrl ← readOptStr (j.objField? "reportDownloadUrl") none
  pure ⟨id, status, downloadUrl, reportDownloadUrl⟩

/-- Parse a `ValidationReport` from decoded JSON. -/
def ValidationReport.modelValidate (j : Json) : Option ValidationReport := do
  let transformation ← readOptStr (j.objField? "transformation") none
  let finalScore ← readOptNum (j.objField? "finalScore")
  let profile ← readOptStr (j.objField? "profile") none
  let issues ← readOptList pure (j.objField? "issues")
  pure ⟨transformation, finalScore, profile, issues⟩

/-- A `LogoOptions` value satisfying the declared `align` pattern (a record
pydantic itself could have constructed). -/
def LogoOptions.validB (l : LogoOptions) : Bool := alignOk l.align

/-- A `RenderingOptions` value whose nested logo satisfies its pattern. -/
def RenderingOptions.validB (r : RenderingOptions) : Bool :=
  match r.logo with
  | some l => l.validB
  | none => true

/-- A `TransformationMetadata` value whose (only) pattern-constrained nested
field satisfies its pattern. -/
def TransformationMetadata.validB (m : TransformationMetadata) : Bool :=
  match m.rendering with
  | some r => r.validB
  | none => true

/- JSON text rendering, modelling pydantic `model_dump_json` output (compact
separators).  Only the structure of the string matters to the claims; numbers
are printed exactly. -/

/-- Escape one character for a JSON string literal. -/
def escapeChar (c : Char) : String :=
  if c = '"' then "\\\"" else if c = '\\' then "\\\\" else String.singleton c

/-- Render a JSON string literal. -/
def renderStr (s : String) : String :=
  "\"" ++ String.join (s.data.map escapeChar) ++ "\""

mutual

/-- Render a JSON value as compact JSON text. -/
def Json.render : Json → String
  | .null => "null"
  | .bool b => if b then "true" else "false"
  | .num q => if q.den = 1 then toString q.num else toString q
  | .str s => renderStr s
  | .arr elems => "[" ++ Json.renderArr elems ++ "]"
  | .obj fields => "\x7b" ++ Json.renderObj fields ++ "\x7d"

/-- Render the comma-separated elements of a JSON array. -/
def Json.renderArr : List Json → String
  | [] => ""
  | [j] => Json.render j
  | j :: rest => Json.render j ++ "," ++ Json.renderArr rest

/-- Render the comma-separated members of a JSON object. -/
def Json.renderObj : List (String × Json) → String
  | [] => ""
  | [(k, v)] => renderStr k ++ ":" ++ Json.render v
  | (k, v) :: rest => renderStr k ++ ":" ++ Json.render v ++ "," ++ Json.renderObj rest

end

/- Transport layer from src/invoiceiq/client.py. -/

/-- An HTTP response as observed by the client (httpx `Response`):
`jsonBody` is the result of `resp.json()` (`none` when the body is not valid
JSON, in which case `resp.json()` raises), `text` is `resp.text` and
`content` is `resp.content` (raw bytes). -/
structure Response : Type where
  statusCode : Nat
  contentType : String
  jsonBody : Option Json
  text : String
  content : List Nat

/-- The `ApiError` exception (client.py): status code, extracted message
(a decoded JSON value or raw text) and the optional raw response. -/
structure ApiError : Type where
  statusCode : Nat
  message : Json
  response : Option Response

/-- Successful outcome of `_handle`: a decoded JSON structure when the
content-type is JSON, raw bytes otherwise. -/
inductive HandleResult : Type where
  | jsonData (j : Json) : HandleResult
  | raw (content : List Nat) : HandleResult

/-- Failure of `_handle`: an `ApiError` for status >= 400, or the uncaught
decode error raised by `resp.json()` on an invalid body declared as JSON. -/
inductive HandleErr : Type where
  | api (e : ApiError) : HandleErr
  | jsonDecodeError : HandleErr

/-- Does `pat` occur as a contiguous sub-sequence of `s`? -/
def substrOccurs (pat : List Char) : List Char → Bool
  | [] => pat.isEmpty
  | c :: rest => pat.isPrefixOf (c :: rest) || substrOccurs pat rest

/-- Python `pat in s` for strings: `pat` occurs as a substring of `s`. -/
def containsSubstring (s pat : String) : Bool :=
  substrOccurs pat.data s.data

/-- Message extraction of `_handle` for a failing response:
`data.get("message") or data.get("error") or resp.text`, where a non-object
body makes `data.get` raise (caught, falling back to `resp.text`). -/
def handleMessage (r : Response) : Json :=
  match r.jsonBody with
  | none => .str r.text
  | some data =>
    match data with
    | .obj fields =>
      let m := dictGet fields "message"
      if m.isTruthy then m
      else
        let e := dictGet fields "error"
        if e.isTruthy then e else .str r.text
    | _ => .str r.text

/-- `InvoiceIQClient._handle` (client.py lines 59-71). -/
def handle (r : Response) : Except HandleErr HandleResult :=
  if 400 ≤ r.statusCode then
    .error (.api ⟨r.statusCode, handleMessage r, some r⟩)
  else if containsSubstring r.contentType "application/json" = true then
    match r.jsonBody with
    | some j => .ok (.jsonData j)
    | none => .error .jsonDecodeError
  else
    .ok (.raw r.content)

/-- Errors surfaced by the typed fetch operations: an `ApiError`, the
uncaught JSON decode error, or a pydantic validation error from
`model_validate`. -/
inductive OpError : Type where
  | api (e : ApiError) : OpError
  | jsonDecodeError : OpError
  | validationError : OpError

/-- `InvoiceIQClient.get_validation_report` (client.py lines 98-105), from
the already-received response. -/
def get_validation_report (r : Response) : Except OpError ValidationReport :=
  match handle r with
  | .error (.api e) => .error (.api e)
  | .error .jsonDecodeError => .error .jsonDecodeError
  | .ok (.raw _) =>
    .error (.api ⟨500, .str "Réponse binaire inattendue pour un rapport JSON", none⟩)
  | .ok (.jsonData d) =>
    match ValidationReport.modelValidate d with
    | some v => .ok v
    | none => .error .validationError

/-- `InvoiceIQClient.get_transformation` (client.py lines 133-139), from the
already-received response. -/
def get_transformation (r : Response) : Except OpError Job :=
  match handle r with
  | .error (.api e) => .error (.api e)
  | .error .jsonDecodeError => .error .jsonDecodeError
  | .ok (.raw _) =>
    .error (.api ⟨500, .str "Réponse binaire inattendue pour un job JSON", none⟩)
  | .ok (.jsonData d) =>
    match Job.modelValidate d with
    | some job => .ok job
    | none => .error .validationError

/-- `InvoiceIQClient.get_generation` (client.py lines 152-158), from the
already-received response. -/
def get_generation (r : Response) : Except OpError Job :=
  match handle r with
  | .error (.api e) => .error (.api e)
  | .error .jsonDecodeError => .error .jsonDecodeError
  | .ok (.raw _) =>
    .error (.api ⟨500, .str "Réponse binaire inattendue pour un job JSON", none⟩)
  | .ok (.jsonData d) =>
    match Job.modelValidate d with
    | some job => .ok job
    | none => .error .validationError

/-- `metadata.model_dump_json()` (client.py line 124). -/
def model_dump_json (m : TransformationMetadata) : String :=
  Json.render m.toJson

/-- The multipart request built by `transform_pdf`: one binary file part and
the plain form fields of the `data` dict. -/
structure TransformRequest : Type where
  fileField : String
  dataFields : List (String × String)

/-- `InvoiceIQClient.transform_pdf` (client.py lines 113-131), restricted to
the request it builds for a typed metadata record: `files = ("file": fp)` and
`data = ("metadata": metadata.model_dump_json())`. -/
def transform_pdf_request (m : TransformationMetadata) : TransformRequest :=
  ⟨"file", [("metadata", model_dump_json m)]⟩

/- The job poller `InvoiceIQClient.wait_for_job` (client.py lines 161-188). -/

/-- Python `str.upper()`: uppercase every character (ASCII behaviour,
matching `Char.toUpper`). -/
def pyUpper (s : String) : String :=
  ⟨s.data.map Char.toUpper⟩

/-- Terminal outcome of one poll run.  `ok` models the `return job`,
`jobFailed` the raised `ApiError`, `timeoutErr` the raised built-in
`TimeoutError` (a distinct exception class), and `fetchErr` an exception of
arbitrary type `ε` propagating out of `fetch_fn`. -/
inductive WaitOutcome (ε : Type) : Type where
  | ok (job : Job) : WaitOutcome ε
  | jobFailed (e : ApiError) : WaitOutcome ε
  | timeoutErr (msg : String) : WaitOutcome ε
  | fetchErr (e : ε) : WaitOutcome ε

/-- Record one performed sleep of duration `d` in a poll-run result. -/
def consSleep {ε : Type} (d : ℚ) :
    Option (WaitOutcome ε × Nat × List ℚ) → Option (WaitOutcome ε × Nat × List ℚ)
  | none => none
  | some (r, c, sleeps) => some (r, c, d :: sleeps)

/-- The `while True` loop of `wait_for_job`.  State: `elapsed` is total time
slept so far (so the code's `time.time() + delay > deadline` is
`elapsed + delay > maxWait`), `delay` the current delay, `calls` the number of
fetches already performed.  The result carries the outcome, the total number
of fetch calls, and the list of performed sleep durations; `none` means the
fuel ran out with the loop still running. -/
def waitForJobAux {ε : Type} (fetch : Nat → Except ε Job) (jobId : String)
    (maxWait backoff : ℚ) (completedStatus : String)
    (failedStatuses : List String) :
    ℚ → ℚ → Nat → Nat → Option (WaitOutcome ε × Nat × List ℚ)
  | _, _, _, 0 => none
  | elapsed, delay, calls, fuel + 1 =>
    match fetch calls with
    | .error e => some (.fetchErr e, calls + 1, [])
    | .ok job =>
      if pyUpper job.status = completedStatus then
        some (.ok job, calls + 1, [])
      else if (failedStatuses.map pyUpper).contains (pyUpper job.status) = true then
        some (.jobFailed ⟨500, .str ("Job " ++ jobId ++ " en échec: " ++ job.status), none⟩,
          calls + 1, [])
      else if maxWait < elapsed + delay then
        some (.timeoutErr ("Timeout après " ++ toString maxWait ++
          "s en attendant le job " ++ jobId), calls + 1, [])
      else
        consSleep delay
          (waitForJobAux fetch jobId maxWait backoff completedStatus failedStatuses
            (elapsed + delay) (delay * backoff) (calls + 1) fuel)

/-- `InvoiceIQClient.wait_for_job`: deadline fixed once at entry
(`maxWait` over a clock starting at 0), delay starting at `interval`,
multiplied by `backoff` after each sleep.  `fetch n` is the result of the
`n`-th call of `fetch_fn(job_id)` (0-based). -/
def wait_for_job {ε : Type} (fetch : Nat → Except ε Job) (jobId : String)
    (interval maxWait backoff : ℚ) (completedStatus : String)
    (failedStatuses : List String) (fuel : Nat) :
    Option (WaitOutcome ε × Nat × List ℚ) :=
  waitForJobAux fetch jobId maxWait backoff completedStatus failedStatuses
    0 interval 0 fuel

/-- The sleep durations of `k` consecutive backoff steps starting from
`interval`: `interval * backoff ^ i` for `i < k`. -/
def geomDelays (interval backoff : ℚ) (k : Nat) : List ℚ :=
  (List.range k).map (fun i => interval * backoff ^ i)

/- Concrete fetch stubs and responses used by witnesses and counterexamples. -/

/-- A fetch stub always reporting status `"Completed"` (mixed casing). -/
def fetchMixedCase : Nat → Except Unit Job :=
  fun _ => .ok ⟨"job-1", "Completed", none, none⟩

/-- A fetch stub always reporting status `"Done"`. -/
def fetchDone : Nat → Except Unit Job :=
  fun _ => .ok ⟨"j7", "Done", none, none⟩

/-- The fetch stub of the spec's test: non-terminal status for the first two
calls, `COMPLETED` on the third. -/
def fetchPendingThenCompleted : Nat → Except Unit Job :=
  fun i =>
    if i < 2 then .ok ⟨"job-42", "PENDING", none, none⟩
    else .ok ⟨"job-42", "COMPLETED", some "https://file", none⟩

/-- A fetch stub that always reports a non-terminal status. -/
def fetchAlwaysPending : Nat → Except Unit Job :=
  fun _ => .ok ⟨"job-42", "PENDING", none, none⟩

/-- A fetch stub reporting the lower-case casing variant of the configured
failed status `"FAILED"`. -/
def fetchFailedLower : Nat → Except Unit Job :=
  fun _ => .ok ⟨"job-9", "failed", none, none⟩

/-- A fetch stub that reports a non-terminal status once and then raises a
transport error (modelled by the error value `42`). -/
def fetchErrorSecond : Nat → Except Nat Job :=
  fun i => if i < 1 then .ok ⟨"job-5", "PENDING", none, none⟩ else .error 42

/-- A 404 response with JSON body `("message": "not found")`. -/
def resp404 : Response :=
  ⟨404, "application/json", some (.obj [("message", .str "not found")]), "\x7b\"message\":\"not found\"\x7d", []⟩

/-- A 500 response with a non-JSON body. -/
def resp500 : Response :=
  ⟨500, "text/html", none, "Internal Server Error", []⟩

/-- A 400 response whose JSON body has a `message` field that is present but
empty (falsy in Python). -/
def respEmptyMessage : Response :=
  ⟨400, "application/json", some (.obj [("message", .str "")]), "\x7b\"message\":\"\"\x7d", []⟩

/-- A successful response with a binary (non-JSON) body. -/
def respBinary : Response :=
  ⟨200, "application/pdf", none, "%PDF-1.4", [37, 80, 68, 70]⟩

/-- A successful JSON response describing a job. -/
def respJobJson : Response :=
  ⟨200, "application/json",
    some (.obj [("id", .str "job-1"), ("status", .str "PENDING")]),
    "\x7b\"id\":\"job-1\",\"status\":\"PENDING\"\x7d", []⟩

/-- The metadata record of the repository's test `make_meta`. -/
def sampleMetadata : TransformationMetadata :=
  ⟨"INV-2024-42", "2024-02-22", some "EUR", some "380",
    ⟨"Seller", none, none, some "FR",
      some ⟨some "rue A", none, some "75001", some "Paris", some "FR"⟩⟩,
    ⟨"Buyer", none, none, some "FR",
      some ⟨some "rue B", none, some "69001", some "Lyon", some "FR"⟩⟩,
    none, none, none, 100, 20, 120, none, none⟩

/- Helper lemmas about the poll loop. -/

theorem waitForJobAux_succ {ε : Type} (fetch : Nat → Except ε Job)
    (jobId : String) (maxWait backoff : ℚ) (completed : String)
    (failed : List String) (elapsed delay : ℚ) (calls fuel : Nat) :
    waitForJobAux fetch jobId maxWait backoff completed failed elapsed delay calls (fuel + 1)
      = match fetch calls with
        | .error e => some (.fetchErr e, calls + 1, [])
        | .ok job =>
          if pyUpper job.status = completed then
            some (.ok job, calls + 1, [])
          else if (failed.map pyUpper).contains (pyUpper job.status) = true then
            some (.jobFailed ⟨500, .str ("Job " ++ jobId ++ " en échec: " ++ job.status), none⟩,
              calls + 1, [])
          else if maxWait < elapsed + delay then
            some (.timeoutErr ("Timeout après " ++ toString maxWait ++
              "s en attendant le job " ++ jobId), calls + 1, [])
          else
            consSleep delay
              (waitForJobAux fetch jobId maxWait backoff completed failed
                (elapsed + delay) (delay * backoff) (calls + 1) fuel) := rfl

theorem aux_step_fetchErr {ε : Type} {fetch : Nat → Except ε Job}
    {jobId : String} {maxWait backoff : ℚ} {completed : String}
    {failed : List String} {elapsed delay : ℚ} {calls : Nat} {e : ε}
    (fuel : Nat) (h1 : 1 ≤ fuel) (hf : fetch calls = .error e) :
    waitForJobAux fetch jobId maxWait backoff completed failed elapsed delay calls fuel
      = some (.fetchErr e, calls + 1, []) := by
  obtain ⟨m, rfl⟩ : ∃ m, fuel = m + 1 := ⟨fuel - 1, by omega⟩
  rw [waitForJobAux_succ, hf]

theorem aux_step_ok {ε : Type} {fetch : Nat → Except ε Job}
    {jobId : String} {maxWait backoff : ℚ} {completed : String}
    {failed : List String} {elapsed delay : ℚ} {calls : Nat} {job : Job}
    (fuel : Nat) (h1 : 1 ≤ fuel) (hf : fetch calls = .ok job)
    (hc : pyUpper job.status = completed) :
    waitForJobAux fetch jobId maxWait backoff completed failed elapsed delay calls fuel
      = some (.ok job, calls + 1, []) := by
  obtain ⟨m, rfl⟩ : ∃ m, fuel = m + 1 := ⟨fuel - 1, by omega⟩
  rw [waitForJobAux_succ, hf]
  simp [hc]

theorem aux_step_failed {ε : Type} {fetch : Nat → Except ε Job}
    {jobId : String} {maxWait backoff : ℚ} {completed : String}
    {failed : List String} {elapsed delay : ℚ} {calls : Nat} {job : Job}
    (fuel : Nat) (h1 : 1 ≤ fuel) (hf : fetch calls = .ok job)
    (hnc : pyUpper job.status ≠ completed)
    (hfl : (failed.map pyUpper).contains (pyUpper job.status) = true) :
    waitForJobAux fetch jobId maxWait backoff completed failed elapsed delay calls fuel
      = some (.jobFailed ⟨500, .str ("Job " ++ jobId ++ " en échec: " ++ job.status), none⟩,
          calls + 1, []) := by
  obtain ⟨m, rfl⟩ : ∃ m, fuel = m + 1 := ⟨fuel - 1, by omega⟩
  rw [waitForJobAux_succ, hf]
  simp only [if_neg hnc, if_pos hfl]

theorem aux_step_timeout {ε : Type} {fetch : Nat → Except ε Job}
    {jobId : String} {maxWait backoff : ℚ} {completed : String}
    {failed : List String} {elapsed delay : ℚ} {calls : Nat} {job : Job}
    (fuel : Nat) (h1 : 1 ≤ fuel) (hf : fetch calls = .ok job)
    (hnc : pyUpper job.status ≠ completed)
    (hnfl : (failed.map pyUpper).contains (pyUpper job.status) = false)
    (ht : maxWait < elapsed + delay) :
    waitForJobAux fetch jobId maxWait backoff completed failed elapsed delay calls fuel
      = some (.timeoutErr ("Timeout après " ++ toString maxWait ++
          "s en attendant le job " ++ jobId), calls + 1, []) := by
  obtain ⟨m, rfl⟩ : ∃ m, fuel = m + 1 := ⟨fuel - 1, by omega⟩
  rw [waitForJobAux_succ, hf]
  simp only [if_neg hnc, hnfl, Bool.false_eq_true, if_false, if_pos ht]

theorem aux_step_pending {ε : Type} {fetch : Nat → Except ε Job}
    {jobId : String} {maxWait backoff : ℚ} {completed : String}
    {failed : List String} {elapsed delay : ℚ} {calls : Nat} {job : Job}
    (fuel : Nat) (hf : fetch calls = .ok job)
    (hnc : pyUpper job.status ≠ completed)
    (hnfl : (failed.map pyUpper).contains (pyUpper job.status) = false)
    (hfit : elapsed + delay ≤ maxWait) :
    waitForJobAux fetch jobId maxWait backoff completed failed elapsed delay calls (fuel + 1)
      = consSleep delay
          (waitForJobAux fetch jobId maxWait backoff completed failed
            (elapsed + delay) (delay * backoff) (calls + 1) fuel) := by
  rw [waitForJobAux_succ, hf]
  simp only [if_neg hnc, hnfl, Bool.false_eq_true, if_false, if_neg (not_lt.mpr hfit)]

theorem geomDelays_zero (d b : ℚ) : geomDelays d b 0 = [] := rfl

theorem geomDelays_succ (d b : ℚ) (k : Nat) :
    geomDelays d b (k + 1) = d :: geomDelays (d * b) b k := by
  unfold geomDelays
  rw [List.range_succ_eq_map, List.map_cons, List.map_map]
  congr 1
  · simp
  · apply List.map_congr_left
    intro a _
    simp only [Function.comp_apply, Nat.succ_eq_add_one, pow_succ]
    ring

/-- The pending-run lemma: while the first `k` fetched jobs are neither
completed nor failed and every delay up to the `k`-th fits inside the
deadline, the loop performs exactly the `k` geometric sleeps and continues
from the advanced state. -/
theorem waitForJobAux_run {ε : Type} (fetch : Nat → Except ε Job)
    (jobId : String) (maxWait backoff : ℚ) (completed : String)
    (failed : List String) (fuel : Nat) :
    ∀ (k : Nat) (elapsed delay : ℚ) (calls : Nat),
    (∀ i, i < k → ∃ job, fetch (calls + i) = .ok job ∧
        pyUpper job.status ≠ completed ∧
        (failed.map pyUpper).contains (pyUpper job.status) = false) →
    (∀ i, i < k → elapsed + (geomDelays delay backoff (i + 1)).sum ≤ maxWait) →
    waitForJobAux fetch jobId maxWait backoff completed failed elapsed delay calls (k + fuel)
      = Option.map (fun rcs => (rcs.1, rcs.2.1, geomDelays delay backoff k ++ rcs.2.2))
          (waitForJobAux fetch jobId maxWait backoff completed failed
            (elapsed + (geomDelays delay backoff k).sum) (delay * backoff ^ k)
            (calls + k) fuel) := by
  intro k
  induction k with
  | zero =>
    intro elapsed delay calls _ _
    simp only [Nat.zero_add, geomDelays_zero, List.sum_nil, add_zero, pow_zero, mul_one,
      Nat.add_zero, List.nil_append]
    cases waitForJobAux fetch jobId maxWait backoff completed failed elapsed delay calls fuel <;>
      rfl
  | succ k ih =>
    intro elapsed delay calls pending fits
    obtain ⟨job, hf, hnc, hnfl⟩ := pending 0 (Nat.succ_pos k)
    have hf' : fetch calls = .ok job := by simpa using hf
    have hfit0 : elapsed + delay ≤ maxWait := by
      have h := fits 0 (Nat.succ_pos k)
      simpa [geomDelays_succ, geomDelays_zero] using h
    have pend' : ∀ i, i < k → ∃ jb, fetch (calls + 1 + i) = .ok jb ∧
        pyUpper jb.status ≠ completed ∧
        (failed.map pyUpper).contains (pyUpper jb.status) = false := by
      intro i hi
      obtain ⟨jb, hjb, h1, h2⟩ := pending (i + 1) (by omega)
      refine ⟨jb, ?_, h1, h2⟩
      have harith : calls + 1 + i = calls + (i + 1) := by omega
      rw [harith]
      exact hjb
    have fits' : ∀ i, i < k →
        (elapsed + delay) + (geomDelays (delay * backoff) backoff (i + 1)).sum ≤ maxWait := by
      intro i hi
      have h := fits (i + 1) (by omega)
      rw [geomDelays_succ, List.sum_cons] at h
      linarith
    rw [Nat.succ_add, aux_step_pending (k + fuel) hf' hnc hnfl hfit0,
      ih (elapsed + delay) (delay * backoff) (calls + 1) pend' fits']
    have hA : elapsed + (geomDelays delay backoff (k + 1)).sum
        = (elapsed + delay) + (geomDelays (delay * backoff) backoff k).sum := by
      rw [geomDelays_succ, List.sum_cons]
      ring
    have hB : delay * backoff ^ (k + 1) = (delay * backoff) * backoff ^ k := by
      ring
    have hC : calls + (k + 1) = calls + 1 + k := by omega
    rw [hA, hB, hC, geomDelays_succ]
    cases waitForJobAux fetch jobId maxWait backoff completed failed
        ((elapsed + delay) + (geomDelays (delay * backoff) backoff k).sum)
        ((delay * backoff) * backoff ^ k) (calls + 1 + k) fuel with
    | none => rfl
    | some rcs =>
      obtain ⟨r, c, s⟩ := rcs
      simp [consSleep]

/-- Every performed sleep was checked against the deadline first: along any
terminating run every partial sum of the recorded sleeps stays within the
budget. -/
theorem aux_sleeps_bounded {ε : Type} (fetch : Nat → Except ε Job)
    (jobId : String) (maxWait backoff : ℚ) (completed : String)
    (failed : List String) :
    ∀ (fuel : Nat) (elapsed delay : ℚ) (calls : Nat),
    elapsed ≤ maxWait →
    ∀ rcs, waitForJobAux fetch jobId maxWait backoff completed failed elapsed delay calls fuel
        = some rcs →
    ∀ k, elapsed + ((rcs.2.2).take k).sum ≤ maxWait := by
  intro fuel
  induction fuel with
  | zero =>
    intro elapsed delay calls _ rcs h
    exact absurd h (by simp [waitForJobAux])
  | succ fuel ih =>
    intro elapsed delay calls hel rcs h k
    rw [waitForJobAux_succ] at h
    split at h
    next e heq =>
      cases h
      simpa using hel
    next job heq =>
      split at h
      next hc =>
        cases h
        simpa using hel
      next hc =>
        split at h
        next hfl =>
          cases h
          simpa using hel
        next hfl =>
          split at h
          next ht =>
            cases h
            simpa using hel
          next ht =>
            cases hin : waitForJobAux fetch jobId maxWait backoff completed failed
                (elapsed + delay) (delay * backoff) (calls + 1) fuel with
            | none =>
              rw [hin] at h
              exact absurd h (by simp [consSleep])
            | some rcs' =>
              obtain ⟨r', c', s'⟩ := rcs'
              rw [hin] at h
              cases h
              have hel' : elapsed + delay ≤ maxWait := not_lt.mp ht
              have hb := ih (elapsed + delay) (delay * backoff) (calls + 1) hel'
                (r', c', s') hin
              cases k with
              | zero => simpa using hel
              | succ k =>
                have hbk : elapsed + delay + ((s'.take k)).sum ≤ maxWait := hb k
                simp only [List.take_succ_cons, List.sum_cons]
                linarith

/-- Along any terminating run, a `jobFailed` outcome always carries HTTP
status code 500. -/
theorem aux_jobFailed_500 {ε : Type} (fetch : Nat → Except ε Job)
    (jobId : String) (maxWait backoff : ℚ) (completed : String)
    (failed : List String) :
    ∀ (fuel : Nat) (elapsed delay : ℚ) (calls : Nat) (e : ApiError)
      (c : Nat) (sleeps : List ℚ),
    waitForJobAux fetch jobId maxWait backoff completed failed elapsed delay calls fuel
        = some (.jobFailed e, c, sleeps) → e.statusCode = 500 := by
  intro fuel
  induction fuel with
  | zero =>
    intro elapsed delay calls e c sleeps h
    exact absurd h (by simp [waitForJobAux])
  | succ fuel ih =>
    intro elapsed delay calls e c sleeps h
    rw [waitForJobAux_succ] at h
    split at h
    next e' heq => simp at h
    next job heq =>
      split at h
      next hc => simp at h
      next hc =>
        split at h
        next hfl =>
          have h' := Option.some.inj h
          simp only [Prod.mk.injEq, WaitOutcome.jobFailed.injEq] at h'
          obtain ⟨he, _, _⟩ := h'
          rw [← he]
        next hfl =>
          split at h
          next ht => simp at h
          next ht =>
            cases hin : waitForJobAux fetch jobId maxWait backoff completed failed
                (elapsed + delay) (delay * backoff) (calls + 1) fuel with
            | none =>
              rw [hin] at h
              exact absurd h (by simp [consSleep])
            | some rcs' =>
              obtain ⟨r', c', s'⟩ := rcs'
              rw [hin] at h
              simp only [consSleep] at h
              have h' := Option.some.inj h
              simp only [Prod.mk.injEq] at h'
              obtain ⟨h1, h2, h3⟩ := h'
              cases r' with
              | jobFailed e'' =>
                have he : e'' = e := by
                  simpa [WaitOutcome.jobFailed.injEq] using h1
                exact he ▸ ih (elapsed + delay) (delay * backoff) (calls + 1) e'' c' s' hin
              | ok j => exact absurd h1 (by simp)
              | timeoutErr m => exact absurd h1 (by simp)
              | fetchErr e'' => exact absurd h1 (by simp)

/-- `wait_for_job`, unwound over a pending prefix of `n - 1` fetches whose
delays all fit inside the deadline: the run reaches the `n`-th fetch with the
`n - 1` geometric sleeps performed. -/
theorem wait_for_job_run {ε : Type} (fetch : Nat → Except ε Job)
    (jobId : String) (interval maxWait backoff : ℚ) (completed : String)
    (failed : List String) (n fuel : Nat) (hn : 1 ≤ n) (hfuel : n ≤ fuel)
    (pending : ∀ i, i < n - 1 → ∃ job, fetch i = .ok job ∧
        pyUpper job.status ≠ completed ∧
        (failed.map pyUpper).contains (pyUpper job.status) = false)
    (fits : ∀ i, i < n - 1 → (geomDelays interval backoff (i + 1)).sum ≤ maxWait) :
    wait_for_job fetch jobId interval maxWait backoff completed failed fuel
      = Option.map (fun rcs => (rcs.1, rcs.2.1, geomDelays interval backoff (n - 1) ++ rcs.2.2))
          (waitForJobAux fetch jobId maxWait backoff completed failed
            ((geomDelays interval backoff (n - 1)).sum) (interval * backoff ^ (n - 1))
            (n - 1) (fuel - (n - 1))) := by
  unfold wait_for_job
  have pend0 : ∀ i, i < n - 1 → ∃ job, fetch (0 + i) = .ok job ∧
      pyUpper job.status ≠ completed ∧
      (failed.map pyUpper).contains (pyUpper job.status) = false := by
    intro i hi
    simpa using pending i hi
  have fits0 : ∀ i, i < n - 1 →
      (0 : ℚ) + (geomDelays interval backoff (i + 1)).sum ≤ maxWait := by
    intro i hi
    simpa using fits i hi
  have hsplit : fuel = (n - 1) + (fuel - (n - 1)) := by omega
  conv_lhs => rw [hsplit]
  rw [waitForJobAux_run fetch jobId maxWait backoff completed failed (fuel - (n - 1))
    (n - 1) 0 interval 0 pend0 fits0]
  simp only [zero_add, Nat.zero_add]

/-- C1 (counterexample): with `completed_status = "Completed"` (not fully
upper-case) and a job whose status is the very same string `"Completed"`,
`wait_for_job` does not return the job on the first fetch: line 181 uppercases
only the job's status, so `"COMPLETED" == "Completed"` fails and the run falls
through to the timeout branch instead of succeeding. -/
theorem c1_counterexample :
    wait_for_job fetchMixedCase "job-1" 1 0 (3/2) "Completed" ["FAILED", "CANCELED"] 5
      = some (.timeoutErr "Timeout après 0s en attendant le job job-1", 1, []) ∧
    (WaitOutcome.timeoutErr "Timeout après 0s en attendant le job job-1" : WaitOutcome Unit)
      ≠ .ok ⟨"job-1", "Completed", none, none⟩ := by
  refine ⟨?_, fun h => nomatch h⟩
  with_unfolding_all rfl

/-- C1 (amended): the completed comparison uppercases only the job's status
and compares it verbatim to the configured `completed_status`; whenever the
first fetch reports a job with `status.upper() == completed_status`, the
poller returns that job with exactly one fetch call and no sleep. -/
theorem c1_amended {ε : Type} (fetch : Nat → Except ε Job) (jobId : String)
    (interval maxWait backoff : ℚ) (completed : String) (failed : List String)
    (fuel : Nat) (job : Job) (hfuel : 1 ≤ fuel)
    (hf : fetch 0 = .ok job) (hup : pyUpper job.status = completed) :
    wait_for_job fetch jobId interval maxWait backoff completed failed fuel
      = some (.ok job, 1, []) := by
  unfold wait_for_job
  exact aux_step_ok fuel hfuel hf hup

/-- C1 (witness): a job reporting `"Completed"` against the default
configuration `completed_status = "COMPLETED"` is returned on the first
fetch. -/
theorem c1_witness :
    wait_for_job fetchMixedCase "job-1" 1 60 (3/2) "COMPLETED" ["FAILED", "CANCELED"] 5
      = some (.ok ⟨"job-1", "Completed", none, none⟩, 1, []) :=
  c1_amended fetchMixedCase "job-1" 1 60 (3/2) "COMPLETED" ["FAILED", "CANCELED"] 5
    ⟨"job-1", "Completed", none, none⟩ (by omega) rfl rfl

/-- C2: for every member `F` of the configured failed statuses and any casing
variant of `F`, the poller raises the job-failed `ApiError` on the first
fetch reporting that variant (after any pending prefix), with no further
fetch calls and no further sleep, and the error message is exactly
`"Job <jobId> en échec: <status>"`, containing the job id and the reported
status.  The hypothesis `pyUpper jobN.status ≠ completed` excludes the
coincidence case, where the completed check fires first (claim C4's
documented precedence). -/
theorem c2_failed_first_match {ε : Type} (fetch : Nat → Except ε Job)
    (jobId : String) (interval maxWait backoff : ℚ) (completed : String)
    (failed : List String) (F : String) (n fuel : Nat) (jobN : Job)
    (hn : 1 ≤ n) (hfuel : n ≤ fuel)
    (pending : ∀ i, i < n - 1 → ∃ job, fetch i = .ok job ∧
        pyUpper job.status ≠ completed ∧
        (failed.map pyUpper).contains (pyUpper job.status) = false)
    (fits : ∀ i, i < n - 1 → (geomDelays interval backoff (i + 1)).sum ≤ maxWait)
    (hfN : fetch (n - 1) = .ok jobN)
    (hF : F ∈ failed) (hvar : pyUpper jobN.status = pyUpper F)
    (hnc : pyUpper jobN.status ≠ completed) :
    wait_for_job fetch jobId interval maxWait backoff completed failed fuel
      = some (.jobFailed ⟨500, .str ("Job " ++ jobId ++ " en échec: " ++ jobN.status), none⟩,
          n, geomDelays interval backoff (n - 1)) := by
  have hfl : (failed.map pyUpper).contains (pyUpper jobN.status) = true := by
    rw [hvar]
    exact List.elem_eq_true_of_mem (List.mem_map_of_mem _ hF)
  rw [wait_for_job_run fetch jobId interval maxWait backoff completed failed n fuel
    hn hfuel pending fits]
  rw [aux_step_failed (fuel - (n - 1)) (by omega) hfN hnc hfl]
  have hone : n - 1 + 1 = n := by omega
  simp [hone]

/-- C2 (witness): the lower-case variant `"failed"` of the configured member
`"FAILED"` makes the first fetch raise the job-failed error. -/
theorem c2_witness :
    wait_for_job fetchFailedLower "job-9" 1 60 (3/2) "COMPLETED" ["FAILED", "CANCELED"] 5
      = some (.jobFailed ⟨500, .str "Job job-9 en échec: failed", none⟩, 1, []) := by
  have h := c2_failed_first_match fetchFailedLower "job-9" 1 60 (3/2) "COMPLETED"
    ["FAILED", "CANCELED"] "FAILED" 1 5 ⟨"job-9", "failed", none, none⟩
    (by omega) (by omega)
    (fun i hi => absurd hi (by omega)) (fun i hi => absurd hi (by omega))
    rfl (by simp) rfl (by decide)
  with_unfolding_all exact h

/-- C3: the deadline policy of `wait_for_job`.  (a) Whenever a fetched job is
neither completed nor failed and `now + currentDelay > deadline`
(here `elapsed + delay > maxWait`), the loop raises the `TimeoutError`-class
outcome naming the `maxWait` bound and the job id, with no sleep performed in
that step; (b) every partial sum of the sleeps actually performed in a run
stays within `maxWait` — the poller never starts a sleep that would overshoot
the deadline; (c) the timeout outcome is distinct from the `ApiError`
outcome. -/
theorem c3_deadline_check :
    (∀ (ε : Type) (fetch : Nat → Except ε Job) (jobId : String)
       (maxWait backoff elapsed delay : ℚ) (completed : String)
       (failed : List String) (calls fuel : Nat) (job : Job),
       1 ≤ fuel → fetch calls = .ok job → pyUpper job.status ≠ completed →
       (failed.map pyUpper).contains (pyUpper job.status) = false →
       maxWait < elapsed + delay →
       waitForJobAux fetch jobId maxWait backoff completed failed elapsed delay calls fuel
         = some (.timeoutErr ("Timeout après " ++ toString maxWait ++
             "s en attendant le job " ++ jobId), calls + 1, [])) ∧
    (∀ (ε : Type) (fetch : Nat → Except ε Job) (jobId : String)
       (interval maxWait backoff : ℚ) (completed : String) (failed : List String)
       (fuel : Nat) (rcs : WaitOutcome ε × Nat × List ℚ),
       0 ≤ maxWait →
       wait_for_job fetch jobId interval maxWait backoff completed failed fuel = some rcs →
       ∀ k, ((rcs.2.2).take k).sum ≤ maxWait) ∧
    (∀ (ε : Type) (msg : String) (e : ApiError),
       (WaitOutcome.timeoutErr msg : WaitOutcome ε) ≠ .jobFailed e) := by
  refine ⟨?_, ?_, ?_⟩
  · intro ε fetch jobId maxWait backoff elapsed delay completed failed calls fuel job
      h1 hf hnc hnfl ht
    exact aux_step_timeout fuel h1 hf hnc hnfl ht
  · intro ε fetch jobId interval maxWait backoff completed failed fuel rcs h0 hrun k
    have hb := aux_sleeps_bounded fetch jobId maxWait backoff completed failed fuel
      0 interval 0 h0 rcs hrun k
    simpa using hb
  · intro ε msg e h
    exact nomatch h

/-- C3 (witness): concrete instances of the three parts of
`c3_deadline_check`. -/
theorem c3_witness :
    waitForJobAux fetchAlwaysPending "job-42" 0 (3/2) "COMPLETED" ["FAILED", "CANCELED"] 0 1 0 1
      = some (.timeoutErr "Timeout après 0s en attendant le job job-42", 1, []) ∧
    (([(1 : ℚ)/100]).take 2).sum ≤ 1/50 ∧
    (WaitOutcome.timeoutErr "boom" : WaitOutcome Unit) ≠ .jobFailed ⟨500, .str "x", none⟩ := by
  refine ⟨?_, ?_, ?_⟩
  · have h := c3_deadline_check.1 Unit fetchAlwaysPending "job-42" 0 (3/2) 0 1 "COMPLETED"
      ["FAILED", "CANCELED"] 0 1 ⟨"job-42", "PENDING", none, none⟩
      (by omega) rfl (by decide) rfl (by norm_num)
    with_unfolding_all exact h
  · have h := c3_deadline_check.2.1 Unit fetchAlwaysPending "job-42" (1/100) (1/50) (3/2)
      "COMPLETED" ["FAILED", "CANCELED"] 10
      (.timeoutErr "Timeout après 1/50s en attendant le job job-42", 2, [1/100])
      (by norm_num) (by with_unfolding_all rfl) 2
    with_unfolding_all exact h
  · exact c3_deadline_check.2.2 Unit "boom" ⟨500, .str "x", none⟩

/-- C4 (counterexample): with `completed_status = "Done"` coinciding
case-insensitively with the failed member `"done"`, a job reporting `"Done"`
is NOT returned successfully: the one-sided uppercase comparison of line 181
misses (`"DONE" != "Done"`), and the failed check — which uppercases both
sides — fires, raising the job-failed `ApiError`. -/
theorem c4_counterexample :
    wait_for_job fetchDone "j7" 1 60 (3/2) "Done" ["done"] 5
      = some (.jobFailed ⟨500, .str "Job j7 en échec: Done", none⟩, 1, []) ∧
    (WaitOutcome.jobFailed ⟨500, .str "Job j7 en échec: Done", none⟩ : WaitOutcome Unit)
      ≠ .ok ⟨"j7", "Done", none, none⟩ := by
  refine ⟨?_, fun h => nomatch h⟩
  with_unfolding_all rfl

/-- C4 (amended): when the configured `completed_status` is fully upper-case
(equal to its own uppercasing, as the default `"COMPLETED"` is) and coincides
case-insensitively with a member of `failed_statuses`, a job reporting that
status (in any casing) is returned successfully: the completed check runs
first in every iteration. -/
theorem c4_amended {ε : Type} (fetch : Nat → Except ε Job) (jobId : String)
    (interval maxWait backoff : ℚ) (completed : String) (failed : List String)
    (fuel : Nat) (job : Job) (F : String) (hfuel : 1 ≤ fuel)
    (hupperCfg : pyUpper completed = completed)
    (hF : F ∈ failed) (hcoin : pyUpper F = completed)
    (hf : fetch 0 = .ok job) (hup : pyUpper job.status = completed) :
    wait_for_job fetch jobId interval maxWait backoff completed failed fuel
      = some (.ok job, 1, []) := by
  unfold wait_for_job
  exact aux_step_ok fuel hfuel hf hup

/-- C4 (witness): with `completed_status = "DONE"` and `failed_statuses =
["done"]`, a job reporting `"Done"` is returned successfully. -/
theorem c4_witness :
    wait_for_job fetchDone "j7" 1 60 (3/2) "DONE" ["done"] 5
      = some (.ok ⟨"j7", "Done", none, none⟩, 1, []) :=
  c4_amended fetchDone "j7" 1 60 (3/2) "DONE" ["done"] 5
    ⟨"j7", "Done", none, none⟩ "done" (by omega) rfl (by simp) rfl rfl rfl

/-- C5: if the first `n - 1` fetches report a non-terminal status, the `n`-th
reports the completed status, and every required delay fits before the
deadline, then the poller returns the `n`-th job after exactly `n` fetch
calls, and the sleeps performed are exactly
`interval, interval * backoff, ..., interval * backoff ^ (n - 2)` — the delay
starts at `interval` and is multiplied by `backoff` after each sleep. -/
theorem c5_backoff_schedule {ε : Type} (fetch : Nat → Except ε Job)
    (jobId : String) (interval maxWait backoff : ℚ) (completed : String)
    (failed : List String) (n fuel : Nat) (jobN : Job)
    (hn : 1 ≤ n) (hfuel : n ≤ fuel)
    (pending : ∀ i, i < n - 1 → ∃ job, fetch i = .ok job ∧
        pyUpper job.status ≠ completed ∧
        (failed.map pyUpper).contains (pyUpper job.status) = false)
    (fits : ∀ i, i < n - 1 → (geomDelays interval backoff (i + 1)).sum ≤ maxWait)
    (hfN : fetch (n - 1) = .ok jobN)
    (hup : pyUpper jobN.status = completed) :
    wait_for_job fetch jobId interval maxWait backoff completed failed fuel
      = some (.ok jobN, n, geomDelays interval backoff (n - 1)) := by
  rw [wait_for_job_run fetch jobId interval maxWait backoff completed failed n fuel
    hn hfuel pending fits]
  rw [aux_step_ok (fuel - (n - 1)) (by omega) hfN hup]
  have hone : n - 1 + 1 = n := by omega
  simp [hone]

/-- C5 (witness): the spec's scenario — `interval_seconds = 0.01`,
`backoff_factor = 1.5`, `max_wait_seconds = 0.1`, non-terminal status for the
first 2 calls then `COMPLETED` on the 3rd: the 3rd job is returned, exactly 3
fetch calls occur, and the two sleeps are `0.01` and `0.015`. -/
theorem c5_witness :
    wait_for_job fetchPendingThenCompleted "job-42" (1/100) (1/10) (3/2) "COMPLETED"
      ["FAILED", "CANCELED"] 3
      = some (.ok ⟨"job-42", "COMPLETED", some "https://file", none⟩, 3, [1/100, 3/200]) := by
  have pending : ∀ i, i < 3 - 1 → ∃ job, fetchPendingThenCompleted i = .ok job ∧
      pyUpper job.status ≠ "COMPLETED" ∧
      ((["FAILED", "CANCELED"]).map pyUpper).contains (pyUpper job.status) = false := by
    intro i hi
    interval_cases i <;> exact ⟨⟨"job-42", "PENDING", none, none⟩, rfl, by decide, rfl⟩
  have fits : ∀ i, i < 3 - 1 →
      (geomDelays (1/100) (3/2) (i + 1)).sum ≤ (1/10 : ℚ) := by
    intro i hi
    interval_cases i <;> with_unfolding_all decide
  have h := c5_backoff_schedule fetchPendingThenCompleted "job-42" (1/100) (1/10) (3/2)
    "COMPLETED" ["FAILED", "CANCELED"] 3 3
    ⟨"job-42", "COMPLETED", some "https://file", none⟩
    (by omega) le_rfl pending fits rfl rfl
  with_unfolding_all exact h

/-- C6: an error raised by the fetch operation propagates immediately: if the
`n`-th fetch fails with error `e` (after a fitting pending prefix), the run
ends with exactly that error value, exactly `n` fetch calls, and no sleep
after the failing fetch — the error is not retried, not swallowed, and not
converted to another error kind. -/
theorem c6_fetch_error_propagates {ε : Type} (fetch : Nat → Except ε Job)
    (jobId : String) (interval maxWait backoff : ℚ) (completed : String)
    (failed : List String) (n fuel : Nat) (e : ε)
    (hn : 1 ≤ n) (hfuel : n ≤ fuel)
    (pending : ∀ i, i < n - 1 → ∃ job, fetch i = .ok job ∧
        pyUpper job.status ≠ completed ∧
        (failed.map pyUpper).contains (pyUpper job.status) = false)
    (fits : ∀ i, i < n - 1 → (geomDelays interval backoff (i + 1)).sum ≤ maxWait)
    (hfN : fetch (n - 1) = .error e) :
    wait_for_job fetch jobId interval maxWait backoff completed failed fuel
      = some (.fetchErr e, n, geomDelays interval backoff (n - 1)) := by
  rw [wait_for_job_run fetch jobId interval maxWait backoff completed failed n fuel
    hn hfuel pending fits]
  rw [aux_step_fetchErr (fuel - (n - 1)) (by omega) hfN]
  have hone : n - 1 + 1 = n := by omega
  simp [hone]

/-- C6 (witness): a transport error (value `42`) raised by the second fetch
ends the run immediately with that very error after 2 fetch calls. -/
theorem c6_witness :
    wait_for_job fetchErrorSecond "job-5" 1 60 (3/2) "COMPLETED" ["FAILED", "CANCELED"] 5
      = some (.fetchErr 42, 2, [1]) := by
  have pending : ∀ i, i < 2 - 1 → ∃ job, fetchErrorSecond i = .ok job ∧
      pyUpper job.status ≠ "COMPLETED" ∧
      ((["FAILED", "CANCELED"]).map pyUpper).contains (pyUpper job.status) = false := by
    intro i hi
    interval_cases i
    exact ⟨⟨"job-5", "PENDING", none, none⟩, rfl, by decide, rfl⟩
  have fits : ∀ i, i < 2 - 1 →
      (geomDelays 1 (3/2) (i + 1)).sum ≤ (60 : ℚ) := by
    intro i hi
    interval_cases i
    with_unfolding_all decide
  have h := c6_fetch_error_propagates fetchErrorSecond "job-5" 1 60 (3/2) "COMPLETED"
    ["FAILED", "CANCELED"] 2 5 42 (by omega) (by omega) pending fits rfl
  with_unfolding_all exact h

/-- C10: the `ApiError` raised by `wait_for_job` for a job in the
failed-status class always carries status code 500, regardless of the job
status value or configuration — callers cannot distinguish it from a genuine
HTTP 500 by status code alone. -/
theorem c10_jobFailed_status_500 {ε : Type} (fetch : Nat → Except ε Job)
    (jobId : String) (interval maxWait backoff : ℚ) (completed : String)
    (failed : List String) (fuel : Nat) (e : ApiError) (c : Nat)
    (sleeps : List ℚ)
    (h : wait_for_job fetch jobId interval maxWait backoff completed failed fuel
        = some (.jobFailed e, c, sleeps)) :
    e.statusCode = 500 :=
  aux_jobFailed_500 fetch jobId maxWait backoff completed failed fuel 0 interval 0
    e c sleeps h

/- Round-trip lemmas: `model_validate` is a left inverse of
`model_dump_json`'s tree, field reader by field reader, then model by
model. -/

theorem readOptStr_rt (o d : Option String) :
    readOptStr (some (optStrJson o)) d = some o := by
  cases o <;> rfl

theorem readOptNum_rt (o : Option ℚ) :
    readOptNum (some (optNumJson o)) = some o := by
  cases o <;> rfl

theorem readOptInt_rt (o : Option ℤ) :
    readOptInt (some (optIntJson o)) = some o := by
  cases o with
  | none => rfl
  | some n => simp [readOptInt, optIntJson, Rat.den_intCast, Rat.num_intCast]

theorem readOptBool_rt (o : Option Bool) :
    readOptBool (some (optBoolJson o)) = some o := by
  cases o <;> rfl

theorem addressRoundtrip (a : Address) :
    Address.modelValidate a.toJson = some a := by
  simp [Address.modelValidate, Address.toJson, Json.objField?, List.find?, readOptStr_rt]

theorem readOptObj_addr_rt (o : Option Address) :
    readOptObj Address.modelValidate (some (optObjJson Address.toJson o)) = some o := by
  cases o with
  | none => rfl
  | some a =>
    show (Address.modelValidate (Address.toJson a)).map some = some (some a)
    rw [addressRoundtrip a]
    rfl

theorem partyRoundtrip (p : Party) :
    Party.modelValidate p.toJson = some p := by
  simp [Party.modelValidate, Party.toJson, Json.objField?, List.find?, readReqStr,
    readOptStr_rt, readOptObj_addr_rt]

theorem readReqObj_party_rt (p : Party) :
    readReqObj Party.modelValidate (some (Party.toJson p)) = some p :=
  partyRoundtrip p

theorem logoOptionsRoundtrip (l : LogoOptions) (h : alignOk l.align = true) :
    LogoOptions.modelValidate l.toJson = some l := by
  simp [LogoOptions.modelValidate, LogoOptions.toJson, Json.objField?, List.find?,
    readOptStr_rt, readOptInt_rt, h]

theorem readOptObj_logo_rt (o : Option LogoOptions)
    (h : (match o with | some l => alignOk l.align | none => true) = true) :
    readOptObj LogoOptions.modelValidate (some (optObjJson LogoOptions.toJson o)) = some o := by
  cases o with
  | none => rfl
  | some l =>
    show (LogoOptions.modelValidate (LogoOptions.toJson l)).map some = some (some l)
    rw [logoOptionsRoundtrip l (by simpa using h)]
    rfl

theorem footerOptionsRoundtrip (f : FooterOptions) :
    FooterOptions.modelValidate f.toJson = some f := by
  simp [FooterOptions.modelValidate, FooterOptions.toJson, Json.objField?, List.find?,
    readOptStr_rt, readOptBool_rt]

theorem readOptObj_footer_rt (o : Option FooterOptions) :
    readOptObj FooterOptions.modelValidate (some (optObjJson FooterOptions.toJson o)) = some o := by
  cases o with
  | none => rfl
  | some f =>
    show (FooterOptions.modelValidate (FooterOptions.toJson f)).map some = some (some f)
    rw [footerOptionsRoundtrip f]
    rfl

theorem renderingOptionsRoundtrip (r : RenderingOptions) (h : r.validB = true) :
    RenderingOptions.modelValidate r.toJson = some r := by
  have hl : (match r.logo with | some l => alignOk l.align | none => true) = true := by
    cases hr : r.logo <;>
      simpa [RenderingOptions.validB, LogoOptions.validB, hr] using h
  simp [RenderingOptions.modelValidate, RenderingOptions.toJson, Json.objField?,
    List.find?, readOptStr_rt, readOptObj_footer_rt, readOptObj_logo_rt _ hl]

theorem readOptObj_rendering_rt (o : Option RenderingOptions)
    (h : (match o with | some r => RenderingOptions.validB r | none => true) = true) :
    readOptObj RenderingOptions.modelValidate
      (some (optObjJson RenderingOptions.toJson o)) = some o := by
  cases o with
  | none => rfl
  | some r =>
    show (RenderingOptions.modelValidate (RenderingOptions.toJson r)).map some = some (some r)
    rw [renderingOptionsRoundtrip r (by simpa using h)]
    rfl

theorem invoiceLineRoundtrip (l : InvoiceLine) :
    InvoiceLine.modelValidate l.toJson = some l := by
  simp [InvoiceLine.modelValidate, InvoiceLine.toJson, Json.objField?, List.find?,
    readReqStr, readReqNum, readOptStr_rt, readOptNum_rt]

theorem taxSummaryRoundtrip (t : TaxSummary) :
    TaxSummary.modelValidate t.toJson = some t := by
  simp [TaxSummary.modelValidate, TaxSummary.toJson, Json.objField?, List.find?,
    readOptStr_rt, readOptNum_rt]

theorem mapM_map_rt {α : Type} (f : Json → Option α) (g : α → Json) (xs : List α)
    (h : ∀ x ∈ xs, f (g x) = some x) : (xs.map g).mapM f = some xs := by
  induction xs with
  | nil => rfl
  | cons x xs ih =>
    rw [List.map_cons, List.mapM_cons, h x (List.mem_cons_self x xs),
      ih (fun y hy => h y (List.mem_cons_of_mem x hy))]
    rfl

theorem readOptList_lines_rt (o : Option (List InvoiceLine)) :
    readOptList InvoiceLine.modelValidate
      (some (optListJson InvoiceLine.toJson o)) = some o := by
  cases o with
  | none => rfl
  | some xs =>
    show ((xs.map InvoiceLine.toJson).mapM InvoiceLine.modelValidate).map some
      = some (some xs)
    rw [mapM_map_rt _ _ xs (fun x _ => invoiceLineRoundtrip x)]
    rfl

theorem readOptList_tax_rt (o : Option (List TaxSummary)) :
    readOptList TaxSummary.modelValidate
      (some (optListJson TaxSummary.toJson o)) = some o := by
  cases o with
  | none => rfl
  | some xs =>
    show ((xs.map TaxSummary.toJson).mapM TaxSummary.modelValidate).map some
      = some (some xs)
    rw [mapM_map_rt _ _ xs (fun x _ => taxSummaryRoundtrip x)]
    rfl

/-- C9: `transform_pdf` serialises the metadata record to a single JSON
string and sends it as the one multipart form field named `metadata` (not as
nested structured multipart fields), and for every valid
`TransformationMetadata` record (one whose `align` field, if present,
satisfies its declared pattern — the only constraint pydantic enforces
beyond types), parsing the serialised JSON structure back through
`model_validate` yields a record equal to the original. -/
theorem c9_metadata_roundtrip (m : TransformationMetadata) (h : m.validB = true) :
    (transform_pdf_request m).dataFields = [("metadata", model_dump_json m)] ∧
    model_dump_json m = Json.render m.toJson ∧
    TransformationMetadata.modelValidate m.toJson = some m := by
  refine ⟨rfl, rfl, ?_⟩
  have hr : (match m.rendering with | some r => RenderingOptions.validB r | none => true)
      = true := by
    cases hm : m.rendering <;> simpa [TransformationMetadata.validB, hm] using h
  simp [TransformationMetadata.modelValidate, TransformationMetadata.toJson,
    Json.objField?, List.find?, readReqStr, readReqNum, readOptStr_rt,
    readReqObj_party_rt, readOptList_lines_rt, readOptList_tax_rt,
    readOptObj_rendering_rt _ hr]

/-- C9 (witness): the repository test's metadata record is valid and
round-trips. -/
theorem c9_witness :
    TransformationMetadata.validB sampleMetadata = true ∧
    TransformationMetadata.modelValidate sampleMetadata.toJson = some sampleMetadata :=
  ⟨rfl, (c9_metadata_roundtrip sampleMetadata rfl).2.2⟩

/-- C10 (witness): the job-failed error of a concrete run carries status
code 500. -/
theorem c10_witness :
    (⟨500, .str "Job job-9 en échec: failed", none⟩ : ApiError).statusCode = 500 :=
  c10_jobFailed_status_500 fetchFailedLower "job-9" 1 60 (3/2) "COMPLETED"
    ["FAILED", "CANCELED"] 3 ⟨500, .str "Job job-9 en échec: failed", none⟩ 1 []
    (by with_unfolding_all rfl)

/- Response-handler lemmas for C7 and C8. -/

theorem handle_error_eq (r : Response) (h400 : 400 ≤ r.statusCode) :
    handle r = .error (.api ⟨r.statusCode, handleMessage r, some r⟩) := by
  unfold handle
  rw [if_pos h400]

theorem handleMessage_obj_truthy (r : Response) (kvs : List (String × Json))
    (hbody : r.jsonBody = some (.obj kvs))
    (hm : (dictGet kvs "message").isTruthy = true) :
    handleMessage r = dictGet kvs "message" := by
  unfold handleMessage
  rw [hbody]
  simp [hm]

theorem handleMessage_obj_error (r : Response) (kvs : List (String × Json))
    (hbody : r.jsonBody = some (.obj kvs))
    (hm : (dictGet kvs "message").isTruthy = false)
    (he : (dictGet kvs "error").isTruthy = true) :
    handleMessage r = dictGet kvs "error" := by
  unfold handleMessage
  rw [hbody]
  simp [hm, he]

theorem handleMessage_obj_fallback (r : Response) (kvs : List (String × Json))
    (hbody : r.jsonBody = some (.obj kvs))
    (hm : (dictGet kvs "message").isTruthy = false)
    (he : (dictGet kvs "error").isTruthy = false) :
    handleMessage r = .str r.text := by
  unfold handleMessage
  rw [hbody]
  simp [hm, he]

theorem handleMessage_no_json (r : Response) (hbody : r.jsonBody = none) :
    handleMessage r = .str r.text := by
  unfold handleMessage
  rw [hbody]

/-- C7 (counterexample): a 400 response whose JSON body carries a `message`
field that is present but empty is NOT surfaced with that field's value: the
code chains with Python `or`, so the falsy empty string is skipped and the
raw response text is used — "if present" does not hold as stated. -/
theorem c7_counterexample :
    handle respEmptyMessage
      = .error (.api ⟨400, .str "\x7b\"message\":\"\"\x7d", some respEmptyMessage⟩) ∧
    ("\x7b\"message\":\"\"\x7d" : String) ≠ "" :=
  ⟨rfl, by decide⟩

/-- C7 (amended): for every response with status `>= 400`, `_handle` raises
an `ApiError` carrying the response's numeric status code and the raw
response, whose message is the JSON body's `message` field if present AND
truthy, else the `error` field if present and truthy, else the raw response
text (also when the body is not a JSON object); in particular a 404 response
with body `("message": "not found")` yields status 404 and message
`"not found"`, and a 500 response with a non-JSON body yields the raw
response text as message. -/
theorem c7_error_classification :
    (∀ (r : Response) (kvs : List (String × Json)), 400 ≤ r.statusCode →
       r.jsonBody = some (.obj kvs) → (dictGet kvs "message").isTruthy = true →
       handle r = .error (.api ⟨r.statusCode, dictGet kvs "message", some r⟩)) ∧
    (∀ (r : Response) (kvs : List (String × Json)), 400 ≤ r.statusCode →
       r.jsonBody = some (.obj kvs) → (dictGet kvs "message").isTruthy = false →
       (dictGet kvs "error").isTruthy = true →
       handle r = .error (.api ⟨r.statusCode, dictGet kvs "error", some r⟩)) ∧
    (∀ (r : Response) (kvs : List (String × Json)), 400 ≤ r.statusCode →
       r.jsonBody = some (.obj kvs) → (dictGet kvs "message").isTruthy = false →
       (dictGet kvs "error").isTruthy = false →
       handle r = .error (.api ⟨r.statusCode, .str r.text, some r⟩)) ∧
    (∀ r : Response, 400 ≤ r.statusCode → r.jsonBody = none →
       handle r = .error (.api ⟨r.statusCode, .str r.text, some r⟩)) ∧
    handle resp404 = .error (.api ⟨404, .str "not found", some resp404⟩) ∧
    handle resp500 = .error (.api ⟨500, .str "Internal Server Error", some resp500⟩) := by
  refine ⟨?_, ?_, ?_, ?_, rfl, rfl⟩
  · intro r kvs h400 hbody hm
    rw [handle_error_eq r h400, handleMessage_obj_truthy r kvs hbody hm]
  · intro r kvs h400 hbody hm he
    rw [handle_error_eq r h400, handleMessage_obj_error r kvs hbody hm he]
  · intro r kvs h400 hbody hm he
    rw [handle_error_eq r h400, handleMessage_obj_fallback r kvs hbody hm he]
  · intro r h400 hbody
    rw [handle_error_eq r h400, handleMessage_no_json r hbody]

/-- C7 (witness): the 404 / `"not found"` response, through the general
truthy-`message` part of `c7_error_classification`. -/
theorem c7_witness :
    handle resp404 = .error (.api ⟨404, .str "not found", some resp404⟩) :=
  c7_error_classification.1 resp404 [("message", .str "not found")]
    (by decide) rfl rfl

/-- C8: for every typed JSON fetch operation, a successful response whose
content-type is not JSON (so `_handle` decodes it to raw bytes) makes the
operation raise the dedicated `ApiError` (status 500, French
"unexpected binary response" message) instead of crashing in the typed
parse; and the typed record parse is only ever attempted on a decoded JSON
structure. -/
theorem c8_binary_body_guard :
    (∀ r : Response, r.statusCode < 400 →
       containsSubstring r.contentType "application/json" = false →
       get_transformation r
         = .error (.api ⟨500, .str "Réponse binaire inattendue pour un job JSON", none⟩)) ∧
    (∀ r : Response, r.statusCode < 400 →
       containsSubstring r.contentType "application/json" = false →
       get_generation r
         = .error (.api ⟨500, .str "Réponse binaire inattendue pour un job JSON", none⟩)) ∧
    (∀ r : Response, r.statusCode < 400 →
       containsSubstring r.contentType "application/json" = false →
       get_validation_report r
         = .error (.api ⟨500, .str "Réponse binaire inattendue pour un rapport JSON", none⟩)) ∧
    (∀ (r : Response) (j : Job), get_transformation r = .ok j →
       ∃ d, handle r = .ok (.jsonData d) ∧ Job.modelValidate d = some j) := by
  have hraw : ∀ r : Response, r.statusCode < 400 →
      containsSubstring r.contentType "application/json" = false →
      handle r = .ok (.raw r.content) := by
    intro r h1 h2
    unfold handle
    rw [if_neg (by omega), if_neg (by simp [h2])]
  refine ⟨?_, ?_, ?_, ?_⟩
  · intro r h1 h2
    unfold get_transformation
    rw [hraw r h1 h2]
  · intro r h1 h2
    unfold get_generation
    rw [hraw r h1 h2]
  · intro r h1 h2
    unfold get_validation_report
    rw [hraw r h1 h2]
  · intro r j h
    unfold get_transformation at h
    split at h
    next e heq => exact absurd h (by simp)
    next heq => exact absurd h (by simp)
    next c heq => exact absurd h (by simp)
    next d heq =>
      split at h
      next job hv =>
        refine ⟨d, heq, ?_⟩
        rw [hv]
        exact congrArg some (Except.ok.inj h)
      next hv => exact absurd h (by simp)

/-- C8 (witness): a 200 response with content-type `application/pdf` makes
`get_transformation` return the dedicated binary-body `ApiError`. -/
theorem c8_witness :
    get_transformation respBinary
      = .error (.api ⟨500, .str "Réponse binaire inattendue pour un job JSON", none⟩) :=
  c8_binary_body_guard.1 respBinary (by decide) rfl

end InvoiceIQ
